import Mathlib

/-!
Verification development for the gateway conversation-context engine
(`gateway_service/app/main.py`).

Shallow embedding conventions:
* SQLite tables become Lean lists held in a `GatewayState` record.  Rows of
  `conversation_messages` carry their AUTOINCREMENT `id`; the list is kept in
  insertion order, so `ORDER BY id DESC LIMIT n` followed by `reversed(...)`
  (function `_fetch_recent_turns`) is embedded as "last `n` elements of the
  key-filtered list" via `(l.reverse.take n).reverse`.
* `created_at` ISO-8601 UTC strings compare lexicographically exactly as the
  instants they denote, so they are embedded as `Nat` timestamps compared
  with `<`.
* HTTP calls are oracles passed in as parameters: one dispatch attempt is a
  value of `Except Unit String` (transport/non-2xx failure, or the reply the
  attempt would produce), and the chat-completion backend is a function from
  the request messages and timeout to `Except Unit (Option String)`, the
  `Option String` being the extracted `choices[0].message.content` field when
  present as a string.
* Python `str.strip` / `str.lower` are embedded as the executable
  `pyStrip` / `pyLower` below (their ASCII behavior, which is all the
  claims exercise).
* Uncaught Python exceptions on the storage paths of `_process_message` are
  modelled by success flags in `ProcessEnv`; a `false` flag makes the
  corresponding `aiosqlite` write raise, and `escaped := true` records that
  the exception propagated out of `_process_message`.
-/

/-- Row of table `message_history` (the audit log).  The AUTOINCREMENT `id`
is represented by list position, which no claim consults. -/
structure AuditMessage where
  provider : String
  user_id : String
  chat_id : String
  direction : String
  message_text : String
  created_at : Nat
deriving DecidableEq

/-- Row of table `conversation_messages` (context turns). -/
structure ConversationTurn where
  id : Nat
  provider : String
  user_id : String
  chat_id : String
  role : String
  content : String
  created_at : Nat
deriving DecidableEq

/-- Row of table `conversation_summaries`, UNIQUE on `(user_id, chat_id)`. -/
structure ConversationSummary where
  user_id : String
  chat_id : String
  summary_text : String
  turn_count : Nat
  token_estimate : Nat
  updated_at : Nat
deriving DecidableEq

/-- The three tables created by `_init_db`. -/
structure GatewayState where
  message_history : List AuditMessage
  conversation_messages : List ConversationTurn
  conversation_summaries : List ConversationSummary
deriving DecidableEq

/-- One entry of an OpenAI-style `messages` array (a Python
`Dict[str, str]` with keys `role` and `content`). -/
structure ChatMessage where
  role : String
  content : String
deriving DecidableEq

/-- The environment-derived configuration constants read by the engine
(module-level constants of `main.py`). -/
structure Config where
  dispatchMaxRetries : Nat
  contextWindowTurns : Nat
  summaryUpdateEveryTurns : Int
  summaryTokenThreshold : Int
  summaryMaxChars : Nat
  summaryTimeoutSeconds : ℚ
  dispatchTimeoutSeconds : ℚ
  enableContextSummary : Bool
deriving DecidableEq

/-- The dataclass `IncomingMessage`. -/
structure IncomingMessage where
  provider : String
  user_id : String
  chat_id : String
  text : String
deriving DecidableEq

/-- ASCII whitespace stripped by Python `str.strip()` (the claims only
exercise ASCII text; the Unicode-whitespace cases of `str.strip` are out of
scope of every claim). -/
def pyWhitespace (c : Char) : Bool :=
  c == ' ' || c == '\t' || c == '\n' || c == '\r' || c == '\x0b' || c == '\x0c'

/-- ASCII case mapping of Python `str.lower()`. -/
def pyCharLower (c : Char) : Char :=
  if 'A' ≤ c && c ≤ 'Z' then Char.ofNat (c.toNat + 32) else c

/-- Embeds Python `str.strip()`: drop whitespace from both ends. -/
def pyStrip (s : String) : String :=
  ⟨((s.data.dropWhile pyWhitespace).reverse.dropWhile pyWhitespace).reverse⟩

/-- Embeds Python `str.lower()`. -/
def pyLower (s : String) : String :=
  ⟨s.data.map pyCharLower⟩

/-- Key predicate used by every `WHERE user_id = ? AND chat_id = ?` clause
over `conversation_messages`. -/
def turnKeyMatches (user_id chat_id : String) (t : ConversationTurn) : Bool :=
  t.user_id == user_id && t.chat_id == chat_id

/-- Key predicate for `message_history` rows. -/
def auditKeyMatches (user_id chat_id : String) (m : AuditMessage) : Bool :=
  m.user_id == user_id && m.chat_id == chat_id

/-- Key predicate for `conversation_summaries` rows. -/
def summaryKeyMatches (user_id chat_id : String) (r : ConversationSummary) : Bool :=
  r.user_id == user_id && r.chat_id == chat_id

/-- Embeds `_estimate_tokens` (line 161): `max(1, len(text) // 4)`. -/
def _estimate_tokens (text : String) : Nat :=
  max 1 (text.length / 4)

/-- Embeds `_fetch_summary` (line 287): the row of `conversation_summaries`
for the key, if any (the key is UNIQUE, so the first match). -/
def _fetch_summary (s : GatewayState) (user_id chat_id : String) :
    Option ConversationSummary :=
  s.conversation_summaries.find? (summaryKeyMatches user_id chat_id)

/-- The rows selected by `_fetch_recent_turns` (line 303):
`ORDER BY id DESC LIMIT limit` then `reversed(rows)`, i.e. the last `limit`
rows (in insertion = increasing-id order) of the key-filtered table. -/
def recentTurnRows (s : GatewayState) (user_id chat_id : String) (limit : Nat) :
    List ConversationTurn :=
  ((s.conversation_messages.filter (turnKeyMatches user_id chat_id)).reverse.take
    limit).reverse

/-- The role/content projection `_fetch_recent_turns` returns. -/
def turnMessage (t : ConversationTurn) : ChatMessage :=
  ⟨t.role, t.content⟩

/-- Embeds `_fetch_recent_turns` (line 303). -/
def _fetch_recent_turns (s : GatewayState) (user_id chat_id : String)
    (limit : Nat) : List ChatMessage :=
  (recentTurnRows s user_id chat_id limit).map turnMessage

/-- Embeds `_count_conversation_turns` (line 321). -/
def _count_conversation_turns (s : GatewayState) (user_id chat_id : String) : Nat :=
  (s.conversation_messages.filter (turnKeyMatches user_id chat_id)).length

/-- Embeds `_build_context_messages` (line 335): optional summary `system`
entry (guarded by `summary["summary_text"].strip()` being non-empty), then
the most recent `CONTEXT_WINDOW_TURNS` turns oldest-first, then the new
`user` entry. -/
def _build_context_messages (cfg : Config) (s : GatewayState)
    (user_id chat_id text : String) : List ChatMessage :=
  let sysPart : List ChatMessage :=
    match _fetch_summary s user_id chat_id with
    | some summary =>
      if pyStrip summary.summary_text == "" then []
      else [⟨"system", "Conversation summary:\n" ++ summary.summary_text⟩]
    | none => []
  sysPart ++ _fetch_recent_turns s user_id chat_id cfg.contextWindowTurns
    ++ [⟨"user", text⟩]

/-- The fixed fallback of `_chat_completion` and of the generic dispatch
shape (lines 374 and 403). -/
def LOCAL_FALLBACK : String := "I could not generate a response locally."

/-- The extraction step of `_chat_completion` (lines 367-374): return the
stripped `choices[0].message.content` when it is a non-blank string,
otherwise the fixed local fallback.  The `Option String` argument is the
content field of the backend response, `none` when absent. -/
def extract_chat_content (content : Option String) : String :=
  match content with
  | some c => if pyStrip c == "" then LOCAL_FALLBACK else pyStrip c
  | none => LOCAL_FALLBACK

/-- Backend oracle: request messages and timeout to HTTP outcome. -/
def ChatBackend : Type :=
  List ChatMessage → ℚ → Except Unit (Option String)

/-- Embeds `_chat_completion` (line 354): POST the messages with the given
timeout; an HTTP failure propagates, a response goes through
`extract_chat_content`. -/
def _chat_completion (backend : ChatBackend) (messages : List ChatMessage)
    (timeout_seconds : ℚ) : Except Unit String :=
  (backend messages timeout_seconds).map extract_chat_content

/-- The retry loop of `_dispatch_to_openclaw` (lines 380-417).  `outcome i`
is the end-to-end result of attempt number `i` (the body of the `try`);
`attempt` is the current attempt number, `delay` the current backoff value,
`remaining = maxRetries - attempt + 1` the attempts still allowed.  Returns
the dispatch result, the list of backoff sleeps performed, and the number
of attempts made. -/
def dispatchGo (outcome : Nat → Except Unit String) :
    Nat → ℚ → Nat → Except Unit String × List ℚ × Nat
  | _, _, 0 => (Except.error (), [], 0)
  | attempt, _, 1 =>
    match outcome attempt with
    | Except.ok reply => (Except.ok reply, [], 1)
    | Except.error () => (Except.error (), [], 1)
  | attempt, delay, r + 2 =>
    match outcome attempt with
    | Except.ok reply => (Except.ok reply, [], 1)
    | Except.error () =>
      let rest := dispatchGo outcome (attempt + 1) (2 * delay) (r + 1)
      (rest.1, delay :: rest.2.1, rest.2.2 + 1)

/-- Embeds `_dispatch_to_openclaw` (line 377): attempts run from 1 to
`DISPATCH_MAX_RETRIES` starting with `delay = DISPATCH_INITIAL_DELAY = 1.0`;
the per-attempt HTTP work (context build and POST for the chat-completions
route, payload POST and `reply ?? message ?? output` extraction for the
generic route) is abstracted by the `outcome` oracle. -/
def _dispatch_to_openclaw (maxRetries : Nat)
    (outcome : Nat → Except Unit String) : Except Unit String × List ℚ × Nat :=
  dispatchGo outcome 1 1 maxRetries

/-- Next AUTOINCREMENT id for `conversation_messages`: one above the largest
id present (ids of live rows are what the claims consult). -/
def nextTurnId (s : GatewayState) : Nat :=
  (s.conversation_messages.map (fun t => t.id)).foldr max 0 + 1

/-- Embeds `_store_message_history` (line 232): append one audit row. -/
def _store_message_history (s : GatewayState)
    (provider user_id chat_id direction text : String) (now : Nat) : GatewayState :=
  { s with message_history :=
      s.message_history ++ [⟨provider, user_id, chat_id, direction, text, now⟩] }

/-- Embeds `_store_conversation_message` (line 250): append one turn row. -/
def _store_conversation_message (s : GatewayState)
    (provider user_id chat_id role content : String) (now : Nat) : GatewayState :=
  { s with conversation_messages :=
      s.conversation_messages ++
        [⟨nextTurnId s, provider, user_id, chat_id, role, content, now⟩] }

/-- The `INSERT ... ON CONFLICT(user_id, chat_id) DO UPDATE` of
`_summarize_conversation` (lines 450-471): replace the existing row for the
key, or append a fresh one. -/
def upsertSummary (s : GatewayState) (row : ConversationSummary) : GatewayState :=
  if s.conversation_summaries.any (summaryKeyMatches row.user_id row.chat_id) then
    let replaced := s.conversation_summaries.map
      (fun r => if summaryKeyMatches row.user_id row.chat_id r then row else r)
    { s with conversation_summaries := replaced }
  else
    { s with conversation_summaries := s.conversation_summaries ++ [row] }

/-- The summarizer system instruction built at lines 429-437. -/
def summarizerInstruction (maxChars : Nat) : String :=
  "Summarize this chat for future assistant context. " ++
    "Include user preferences, open tasks, and important facts. " ++
    "Keep it under " ++ toString maxChars ++ " characters."

/-- The `"role: content"` transcript joined by newlines (line 428). -/
def summaryTranscript (turns : List ConversationTurn) : String :=
  String.intercalate "\n" (turns.map (fun t => t.role ++ ": " ++ t.content))

/-- Embeds `_summarize_conversation` (line 420).  Besides the updated state
it returns the chat-completion call made (messages and timeout), `none`
when the function returned before dispatching. -/
def _summarize_conversation (cfg : Config) (backend : ChatBackend)
    (s : GatewayState) (user_id chat_id : String) (total_turn_count : Nat)
    (now : Nat) : GatewayState × Option (List ChatMessage × ℚ) :=
  if !cfg.enableContextSummary then (s, none)
  else
    let turns := recentTurnRows s user_id chat_id 40
    if turns.isEmpty then (s, none)
    else
      let messages : List ChatMessage :=
        [⟨"system", summarizerInstruction cfg.summaryMaxChars⟩,
         ⟨"user", summaryTranscript turns⟩]
      match _chat_completion backend messages cfg.summaryTimeoutSeconds with
      | Except.error () => (s, some (messages, cfg.summaryTimeoutSeconds))
      | Except.ok summary_raw =>
        let summary_text := summary_raw.take cfg.summaryMaxChars
        (upsertSummary s
          ⟨user_id, chat_id, summary_text, total_turn_count,
            _estimate_tokens summary_text, now⟩,
         some (messages, cfg.summaryTimeoutSeconds))

/-- The refresh condition computed at lines 478-490 of
`_maybe_update_summary` (Python `int` arithmetic, hence `Int` here: the
turn delta can be negative when stored `turn_count` exceeds the live turn
count). -/
def shouldRefreshSummary (cfg : Config) (s : GatewayState)
    (user_id chat_id : String) : Bool :=
  let total_turn_count := _count_conversation_turns s user_id chat_id
  let summary := _fetch_summary s user_id chat_id
  let summarized_turn_count : Nat :=
    match summary with
    | some x => x.turn_count
    | none => 0
  let recent_turns := recentTurnRows s user_id chat_id cfg.contextWindowTurns
  let estimated_prompt_tokens : Nat :=
    (recent_turns.map (fun t => _estimate_tokens t.content)).sum +
      (match summary with
       | some x => x.token_estimate
       | none => 0)
  decide ((total_turn_count : Int) - (summarized_turn_count : Int) ≥
      cfg.summaryUpdateEveryTurns) ||
    decide ((estimated_prompt_tokens : Int) ≥ cfg.summaryTokenThreshold)

/-- Embeds `_maybe_update_summary` (line 474). -/
def _maybe_update_summary (cfg : Config) (backend : ChatBackend)
    (s : GatewayState) (user_id chat_id : String) (now : Nat) : GatewayState :=
  if !cfg.enableContextSummary then s
  else if shouldRefreshSummary cfg s user_id chat_id then
    (_summarize_conversation cfg backend s user_id chat_id
      (_count_conversation_turns s user_id chat_id) now).1
  else s

/-- Embeds `_forget_conversation` (line 496): delete the rows of all three
tables for the key. -/
def _forget_conversation (s : GatewayState) (user_id chat_id : String) :
    GatewayState :=
  { message_history :=
      s.message_history.filter (fun m => !auditKeyMatches user_id chat_id m),
    conversation_messages :=
      s.conversation_messages.filter (fun t => !turnKeyMatches user_id chat_id t),
    conversation_summaries :=
      s.conversation_summaries.filter
        (fun r => !summaryKeyMatches user_id chat_id r) }

/-- Embeds `_cleanup_old_messages` (line 513) with the computed cutoff made
a parameter: delete `message_history` and `conversation_messages` rows with
`created_at < cutoff`; `conversation_summaries` is not touched. -/
def _cleanup_old_messages (s : GatewayState) (cutoff : Nat) : GatewayState :=
  { s with
    message_history :=
      s.message_history.filter (fun m => !decide (m.created_at < cutoff)),
    conversation_messages :=
      s.conversation_messages.filter (fun t => !decide (t.created_at < cutoff)) }

/-- The confirmation sent on the `/forget` path (line 541). -/
def FORGET_CONFIRMATION : String := "Conversation history cleared for this chat."

/-- The fallback reply substituted on dispatch failure (line 554). -/
def FALLBACK_UNAVAILABLE : String :=
  "Local assistant is currently unavailable. Please try again shortly."

/-- External effect outcomes for one `_process_message` run.  `outcome` is
the dispatch-attempt oracle, `backend` the summarizer backend; each `Ok`
flag is `false` exactly when the corresponding `aiosqlite` write raises (no
`try` guards those writes in the source). -/
structure ProcessEnv where
  outcome : Nat → Except Unit String
  backend : ChatBackend
  sendOk : Bool
  storeInHistOk : Bool
  storeInTurnOk : Bool
  storeOutHistOk : Bool
  storeOutTurnOk : Bool
  summaryOk : Bool

/-- Observable result of `_process_message`: final storage state, the
`send_message` calls attempted (chat id and text), the number of
`_dispatch_to_openclaw` calls made, and whether an exception escaped the
function. -/
structure ProcessResult where
  state : GatewayState
  sends : List (String × String)
  dispatchCalls : Nat
  escaped : Bool
deriving DecidableEq

/-- Embeds `_process_message` (line 530).  The reset branch compares
`text.strip().lower()` with the literal; its provider send is attempted
and any `httpx.HTTPError` is caught (lines 537-544), as is the final
delivery send (lines 560-564).  The storage writes at lines 547-548 and
556-558 and the storage work inside `_maybe_update_summary` have no
handler: a failure there aborts the coroutine (`escaped := true`). -/
def _process_message (cfg : Config) (env : ProcessEnv) (s : GatewayState)
    (msg : IncomingMessage) (now : Nat) : ProcessResult :=
  if pyLower (pyStrip msg.text) == "/forget" then
    { state := _forget_conversation s msg.user_id msg.chat_id,
      sends := [(msg.chat_id, FORGET_CONFIRMATION)],
      dispatchCalls := 0,
      escaped := false }
  else if !env.storeInHistOk then
    { state := s, sends := [], dispatchCalls := 0, escaped := true }
  else
    let s1 := _store_message_history s msg.provider msg.user_id msg.chat_id
      "inbound" msg.text now
    if !env.storeInTurnOk then
      { state := s1, sends := [], dispatchCalls := 0, escaped := true }
    else
      let s2 := _store_conversation_message s1 msg.provider msg.user_id
        msg.chat_id "user" msg.text now
      let dispatched := _dispatch_to_openclaw cfg.dispatchMaxRetries env.outcome
      let reply :=
        match dispatched.1 with
        | Except.ok r => r
        | Except.error () => FALLBACK_UNAVAILABLE
      if !env.storeOutHistOk then
        { state := s2, sends := [], dispatchCalls := 1, escaped := true }
      else
        let s3 := _store_message_history s2 msg.provider msg.user_id msg.chat_id
          "outbound" reply now
        if !env.storeOutTurnOk then
          { state := s3, sends := [], dispatchCalls := 1, escaped := true }
        else
          let s4 := _store_conversation_message s3 msg.provider msg.user_id
            msg.chat_id "assistant" reply now
          if !env.summaryOk then
            { state := s4, sends := [], dispatchCalls := 1, escaped := true }
          else
            let s5 := _maybe_update_summary cfg env.backend s4 msg.user_id
              msg.chat_id now
            { state := s5,
              sends := [(msg.chat_id, reply)],
              dispatchCalls := 1,
              escaped := false }

/-- The documented data-model invariant: every stored summary's
`turn_count` is at most the live `ConversationTurn` count of its
conversation. -/
def summaryCountInv (s : GatewayState) : Prop :=
  ∀ r ∈ s.conversation_summaries,
    r.turn_count ≤ _count_conversation_turns s r.user_id r.chat_id

/-- Concrete configuration for witnesses: the `main.py` defaults with
`DISPATCH_MAX_RETRIES 3` and a window of 2 turns. -/
def cfgW : Config := ⟨3, 2, 6, 3500, 1200, 30, 180, true⟩

/-- Same but with token threshold 1 (every turn triggers a refresh) and an
8-character summary budget. -/
def cfgLowThreshold : Config := ⟨3, 2, 6, 1, 8, 30, 180, true⟩

/-- Same but truncating summaries to 5 characters. -/
def cfgTrunc : Config := ⟨3, 2, 6, 3500, 5, 30, 180, true⟩

/-- Short-hand constructor for concrete turns. -/
def turnW (i : Nat) (uid cid role content : String) (ts : Nat) :
    ConversationTurn :=
  ⟨i, "telegram", uid, cid, role, content, ts⟩

/-- The empty store. -/
def sEmpty : GatewayState := ⟨[], [], []⟩

/-- A store whose summary text for `(u1, c1)` is a single space. -/
def sBlankSummary : GatewayState := ⟨[], [], [⟨"u1", "c1", " ", 0, 1, 0⟩]⟩

/-- Three turns for `(u1, c1)`, one turn of another chat, one summary. -/
def sCtx : GatewayState :=
  ⟨[],
   [turnW 1 "u1" "c1" "user" "hi" 0, turnW 2 "u1" "c1" "assistant" "hello" 1,
    turnW 3 "u1" "c1" "user" "tea" 2, turnW 4 "u2" "c2" "user" "other" 3],
   [⟨"u1", "c1", "likes tea", 3, 2, 2⟩]⟩

/-- `k` short turns for `(u1, c1)` with ids and timestamps 1..k. -/
def mkTurns (k : Nat) : List ConversationTurn :=
  (List.range k).map (fun i => turnW (i + 1) "u1" "c1" "user" "m" (i + 1))

/-- Six stored turns, no summary. -/
def sSixTurns : GatewayState := ⟨[], mkTurns 6, []⟩

/-- Five stored turns, no summary. -/
def sFiveTurns : GatewayState := ⟨[], mkTurns 5, []⟩

/-- Records for two distinct conversations in all three tables. -/
def sTwoChats : GatewayState :=
  ⟨[⟨"telegram", "u1", "c1", "inbound", "hi", 0⟩,
    ⟨"telegram", "u2", "c2", "inbound", "yo", 1⟩],
   [turnW 1 "u1" "c1" "user" "hi" 0, turnW 2 "u2" "c2" "user" "yo" 1],
   [⟨"u1", "c1", "s1", 1, 1, 0⟩, ⟨"u2", "c2", "s2", 1, 1, 1⟩]⟩

/-- Four short turns for `(u9, c9)` with ids and timestamps 1..4. -/
def sFourTurns : GatewayState :=
  ⟨[], (List.range 4).map (fun i => turnW (i + 1) "u9" "c9" "user" "m" (i + 1)),
   []⟩

/-- Dispatch oracle: every attempt fails. -/
def outcomeFail : Nat → Except Unit String := fun _ => Except.error ()

/-- Dispatch oracle: attempt 2 succeeds with reply `pong`, others fail. -/
def outcomeOk2 : Nat → Except Unit String :=
  fun i => if i == 2 then Except.ok "pong" else Except.error ()

/-- Summarizer backend that always fails. -/
def backendFail : ChatBackend := fun _ _ => Except.error ()

/-- Summarizer backend returning padded content. -/
def backendShort : ChatBackend := fun _ _ => Except.ok (some "  a concise summary  ")

/-- Summarizer backend returning the content `facts`. -/
def backendFacts : ChatBackend := fun _ _ => Except.ok (some "facts")

/-- Effects environment: everything succeeds, dispatch succeeds on
attempt 2. -/
def envAllOk : ProcessEnv := ⟨outcomeOk2, backendFail, true, true, true, true, true, true⟩

/-- Effects environment: every dispatch attempt fails, storage fine. -/
def envFailDispatch : ProcessEnv :=
  ⟨outcomeFail, backendFail, true, true, true, true, true, true⟩

/-- Effects environment: the outbound audit write raises. -/
def envOutHistFails : ProcessEnv :=
  ⟨outcomeOk2, backendFail, true, true, true, false, true, true⟩

/-- A plain inbound message. -/
def msgHello : IncomingMessage := ⟨"telegram", "u1", "c1", "hello"⟩

/-- A reset command in mixed case with surrounding whitespace. -/
def msgForgetVariant : IncomingMessage := ⟨"telegram", "u1", "c1", "  /FORGET "⟩

/-- A message that merely contains the reset literal. -/
def msgMentionsForget : IncomingMessage := ⟨"telegram", "u1", "c1", "please /forget"⟩

/-- The store after summarizing the four turns of `sFourTurns` (writing
`turn_count = 4`) and then running the retention purge with cutoff 4. -/
def c9AfterPurge : GatewayState :=
  _cleanup_old_messages
    (_maybe_update_summary cfgLowThreshold backendFacts sFourTurns "u9" "c9"
      100) 4

/-! ### Shared helper lemmas -/

theorem reverse_take_reverse_eq_drop {α : Type} (l : List α) (n : Nat) :
    (l.reverse.take n).reverse = l.drop (l.length - n) := by
  rw [← List.rtake_eq_reverse_take_reverse]
  rfl

theorem recentTurnRows_eq_drop (s : GatewayState) (uid cid : String) (n : Nat) :
    recentTurnRows s uid cid n =
      (s.conversation_messages.filter (turnKeyMatches uid cid)).drop
        ((s.conversation_messages.filter (turnKeyMatches uid cid)).length - n) :=
  reverse_take_reverse_eq_drop _ n

theorem length_recentTurnRows (s : GatewayState) (uid cid : String) (n : Nat) :
    (recentTurnRows s uid cid n).length =
      min (s.conversation_messages.filter (turnKeyMatches uid cid)).length n := by
  rw [recentTurnRows_eq_drop, List.length_drop]
  omega

theorem dispatchGo_spec (outcome : Nat → Except Unit String) :
    ∀ (remaining attempt : Nat) (delay : ℚ) (res : Except Unit String)
      (sleeps : List ℚ) (n : Nat),
      dispatchGo outcome attempt delay remaining = (res, sleeps, n) →
      n ≤ remaining ∧
      (1 ≤ remaining → 1 ≤ n) ∧
      sleeps = (List.range (n - 1)).map (fun k => delay * 2 ^ k) ∧
      ((∃ r, res = Except.ok r) ↔
        ∃ i, attempt ≤ i ∧ i < attempt + remaining ∧ ∃ r, outcome i = Except.ok r) ∧
      (∀ r, res = Except.ok r →
        outcome (attempt + n - 1) = Except.ok r ∧
        ∀ j, attempt ≤ j → j < attempt + n - 1 → outcome j = Except.error ()) := by
  intro remaining
  induction remaining with
  | zero =>
    intro attempt delay res sleeps n h
    simp only [dispatchGo] at h
    injection h with h1 h23
    injection h23 with h2 h3
    subst h1; subst h2; subst h3
    refine ⟨Nat.le_refl 0, by omega, by simp, ?_, ?_⟩
    · constructor
      · rintro ⟨r, hr⟩; cases hr
      · rintro ⟨i, hi1, hi2, -⟩; omega
    · intro r hr; cases hr
  | succ m ih =>
    intro attempt delay res sleeps n h
    cases m with
    | zero =>
      cases ho : outcome attempt with
      | ok reply =>
        simp only [dispatchGo, ho] at h
        injection h with h1 h23
        injection h23 with h2 h3
        subst h1; subst h2; subst h3
        refine ⟨Nat.le_refl 1, fun _ => Nat.le_refl 1, by simp, ?_, ?_⟩
        · constructor
          · intro _
            exact ⟨attempt, Nat.le_refl _, by omega, reply, ho⟩
          · intro _
            exact ⟨reply, rfl⟩
        · intro r hr
          obtain rfl : reply = r := by cases hr; rfl
          refine ⟨by simpa using ho, ?_⟩
          intro j hj1 hj2
          omega
      | error e =>
        cases e
        simp only [dispatchGo, ho] at h
        injection h with h1 h23
        injection h23 with h2 h3
        subst h1; subst h2; subst h3
        refine ⟨Nat.le_refl 1, fun _ => Nat.le_refl 1, by simp, ?_, ?_⟩
        · constructor
          · rintro ⟨r, hr⟩; cases hr
          · rintro ⟨i, hi1, hi2, r, hr⟩
            obtain rfl : i = attempt := by omega
            rw [ho] at hr; cases hr
        · intro r hr; cases hr
    | succ k =>
      cases ho : outcome attempt with
      | ok reply =>
        simp only [dispatchGo, ho] at h
        injection h with h1 h23
        injection h23 with h2 h3
        subst h1; subst h2; subst h3
        refine ⟨by omega, fun _ => Nat.le_refl 1, by simp, ?_, ?_⟩
        · constructor
          · intro _
            exact ⟨attempt, Nat.le_refl _, by omega, reply, ho⟩
          · intro _
            exact ⟨reply, rfl⟩
        · intro r hr
          obtain rfl : reply = r := by cases hr; rfl
          refine ⟨by simpa using ho, ?_⟩
          intro j hj1 hj2
          omega
      | error e =>
        cases e
        rcases hrest : dispatchGo outcome (attempt + 1) (2 * delay) (k + 1) with
          ⟨res', sleeps', n'⟩
        simp only [dispatchGo, ho, hrest] at h
        injection h with h1 h23
        injection h23 with h2 h3
        subst h1; subst h2; subst h3
        obtain ⟨ihle, ihpos, ihsl, ihiff, ihlast⟩ :=
          ih (attempt + 1) (2 * delay) res' sleeps' n' hrest
        have hn1 : 1 ≤ n' := ihpos (by omega)
        refine ⟨by omega, fun _ => by omega, ?_, ?_, ?_⟩
        · rw [ihsl]
          obtain ⟨p, rfl⟩ : ∃ p, n' = p + 1 := ⟨n' - 1, by omega⟩
          have harith : ((fun j => delay * 2 ^ j) ∘ Nat.succ) =
              (fun j => 2 * delay * 2 ^ j) := by
            funext j
            simp only [Function.comp_apply, pow_succ]
            ring
          simp only [Nat.add_sub_cancel, List.range_succ_eq_map,
            List.map_cons, List.map_map, pow_zero, mul_one, harith]
        · constructor
          · intro hex
            obtain ⟨i, hi1, hi2, r, hr⟩ := ihiff.mp hex
            exact ⟨i, by omega, by omega, r, hr⟩
          · rintro ⟨i, hi1, hi2, r, hr⟩
            by_cases hia : i = attempt
            · subst hia
              rw [ho] at hr; cases hr
            · exact ihiff.mpr ⟨i, by omega, by omega, r, hr⟩
        · intro r hr
          obtain ⟨hok, hprev⟩ := ihlast r hr
          constructor
          · have heq : attempt + 1 + n' - 1 = attempt + (n' + 1) - 1 := by omega
            rw [← heq]
            exact hok
          · intro j hj1 hj2
            by_cases hja : j = attempt
            · subst hja; exact ho
            · exact hprev j (by omega) (by omega)

theorem dispatch_error_of_all_fail (maxRetries : Nat)
    (outcome : Nat → Except Unit String)
    (h : ∀ i, 1 ≤ i → i ≤ maxRetries → outcome i = Except.error ()) :
    (_dispatch_to_openclaw maxRetries outcome).1 = Except.error () := by
  rcases hd : _dispatch_to_openclaw maxRetries outcome with ⟨res, sleeps, n⟩
  obtain ⟨-, -, -, hiff, -⟩ := dispatchGo_spec outcome maxRetries 1 1 res sleeps n hd
  cases res with
  | ok r =>
    obtain ⟨i, hi1, hi2, r', hr⟩ := hiff.mp ⟨r, rfl⟩
    rw [h i hi1 (by omega)] at hr
    cases hr
  | error e => cases e; rfl

theorem filter_not_filter_self {α : Type} (p : α → Bool) (l : List α) :
    (l.filter (fun a => !p a)).filter p = [] := by
  induction l with
  | nil => rfl
  | cons a t iht =>
    by_cases ha : p a = true
    · simp [List.filter_cons, ha, iht]
    · have ha' : p a = false := by simpa using ha
      simp [List.filter_cons, ha', iht]

theorem upsertSummary_preserves (s : GatewayState) (row : ConversationSummary) :
    (upsertSummary s row).message_history = s.message_history ∧
      (upsertSummary s row).conversation_messages = s.conversation_messages := by
  unfold upsertSummary
  split <;> exact ⟨rfl, rfl⟩

theorem summarize_preserves (cfg : Config) (backend : ChatBackend)
    (s : GatewayState) (uid cid : String) (total now : Nat) :
    ((_summarize_conversation cfg backend s uid cid total now).1).message_history =
        s.message_history ∧
      ((_summarize_conversation cfg backend s uid cid total now).1).conversation_messages =
        s.conversation_messages := by
  unfold _summarize_conversation
  split
  · exact ⟨rfl, rfl⟩
  · dsimp only
    split
    · exact ⟨rfl, rfl⟩
    · split
      · exact ⟨rfl, rfl⟩
      · exact upsertSummary_preserves ..

theorem maybe_update_preserves (cfg : Config) (backend : ChatBackend)
    (s : GatewayState) (uid cid : String) (now : Nat) :
    (_maybe_update_summary cfg backend s uid cid now).message_history =
        s.message_history ∧
      (_maybe_update_summary cfg backend s uid cid now).conversation_messages =
        s.conversation_messages := by
  unfold _maybe_update_summary
  split
  · exact ⟨rfl, rfl⟩
  · split
    · exact summarize_preserves ..
    · exact ⟨rfl, rfl⟩

theorem find_map_if {α : Type} (p : α → Bool) (row : α) (hrow : p row = true) :
    ∀ l : List α, l.any p = true →
      (l.map (fun r => if p r then row else r)).find? p = some row := by
  intro l
  induction l with
  | nil => intro h; simp at h
  | cons a t iht =>
    intro h
    by_cases ha : p a = true
    · simp [List.find?_cons, ha, hrow]
    · have ha' : p a = false := by simpa using ha
      have ht : t.any p = true := by
        simpa [List.any_cons, ha'] using h
      simp [List.find?_cons, ha', iht ht]

theorem find_append_single {α : Type} (p : α → Bool) (row : α)
    (hrow : p row = true) :
    ∀ l : List α, l.any p = false → (l ++ [row]).find? p = some row := by
  intro l
  induction l with
  | nil => intro _; simp [List.find?_cons, hrow]
  | cons a t iht =>
    intro h
    rw [List.any_cons] at h
    have ha : p a = false := by
      cases hpa : p a
      · rfl
      · rw [hpa] at h; simp at h
    have ht : t.any p = false := by
      rw [ha] at h; simpa using h
    simp [List.find?_cons, ha, iht ht]

theorem fetch_upsertSummary_same (s : GatewayState) (row : ConversationSummary) :
    _fetch_summary (upsertSummary s row) row.user_id row.chat_id = some row := by
  have hrow : summaryKeyMatches row.user_id row.chat_id row = true := by
    simp [summaryKeyMatches]
  unfold _fetch_summary upsertSummary
  by_cases hany :
      s.conversation_summaries.any (summaryKeyMatches row.user_id row.chat_id) = true
  · rw [if_pos hany]
    exact find_map_if _ row hrow _ hany
  · have hany' :
        s.conversation_summaries.any (summaryKeyMatches row.user_id row.chat_id) =
          false := by
      simpa using hany
    rw [if_neg (by simp [hany'])]
    exact find_append_single _ row hrow _ hany'

theorem count_turns_upsert_eq (s : GatewayState) (row : ConversationSummary)
    (a b : String) :
    _count_conversation_turns (upsertSummary s row) a b =
      _count_conversation_turns s a b := by
  unfold upsertSummary
  split <;> rfl

theorem count_turns_store_ge (s : GatewayState)
    (prov uid cid role content : String) (now : Nat) (a b : String) :
    _count_conversation_turns s a b ≤
      _count_conversation_turns
        (_store_conversation_message s prov uid cid role content now) a b := by
  unfold _count_conversation_turns _store_conversation_message
  simp only [List.filter_append, List.length_append]
  exact Nat.le_add_right _ _

theorem count_turns_forget_eq (s : GatewayState) (uid cid a b : String)
    (hne : ¬(uid = a ∧ cid = b)) :
    _count_conversation_turns (_forget_conversation s uid cid) a b =
      _count_conversation_turns s a b := by
  unfold _count_conversation_turns _forget_conversation
  simp only
  rw [List.filter_filter]
  congr 1
  apply List.filter_congr
  intro t ht
  cases h1 : turnKeyMatches a b t
  · simp
  · cases h2 : turnKeyMatches uid cid t
    · simp
    · exfalso
      apply hne
      unfold turnKeyMatches at h1 h2
      simp only [Bool.and_eq_true, beq_iff_eq] at h1 h2
      exact ⟨h2.1.symm.trans h1.1, h2.2.symm.trans h1.2⟩

theorem summaryCountInv_upsert (s : GatewayState) (row : ConversationSummary)
    (hinv : summaryCountInv s)
    (hrow : row.turn_count ≤ _count_conversation_turns s row.user_id row.chat_id) :
    summaryCountInv (upsertSummary s row) := by
  intro r hr
  rw [count_turns_upsert_eq]
  unfold upsertSummary at hr
  by_cases hany :
      s.conversation_summaries.any (summaryKeyMatches row.user_id row.chat_id) = true
  · rw [if_pos hany] at hr
    simp only [List.mem_map] at hr
    obtain ⟨r0, hr0, hfr⟩ := hr
    by_cases hm : summaryKeyMatches row.user_id row.chat_id r0 = true
    · rw [if_pos hm] at hfr
      subst hfr
      exact hrow
    · rw [if_neg hm] at hfr
      subst hfr
      exact hinv r0 hr0
  · rw [if_neg hany] at hr
    simp only [List.mem_append, List.mem_singleton] at hr
    rcases hr with h | h
    · exact hinv r h
    · subst h
      exact hrow

theorem fetch_summary_mem (s : GatewayState) (uid cid : String)
    (sum : ConversationSummary) (h : _fetch_summary s uid cid = some sum) :
    sum ∈ s.conversation_summaries ∧ sum.user_id = uid ∧ sum.chat_id = cid := by
  unfold _fetch_summary at h
  have hmem := List.mem_of_find?_eq_some h
  have hp := List.find?_some h
  unfold summaryKeyMatches at hp
  simp only [Bool.and_eq_true, beq_iff_eq] at hp
  exact ⟨hmem, hp.1, hp.2⟩

theorem summaryCountInv_store (s : GatewayState)
    (prov uid cid role content : String) (now : Nat)
    (hinv : summaryCountInv s) :
    summaryCountInv (_store_conversation_message s prov uid cid role content now) := by
  intro r hr
  have hr' : r ∈ s.conversation_summaries := hr
  exact Nat.le_trans (hinv r hr') (count_turns_store_ge s prov uid cid role content now _ _)

theorem summaryCountInv_forget (s : GatewayState) (uid cid : String)
    (hinv : summaryCountInv s) :
    summaryCountInv (_forget_conversation s uid cid) := by
  intro r hr
  have hr0 : r ∈ s.conversation_summaries ∧ (!summaryKeyMatches uid cid r) = true := by
    simpa [_forget_conversation, List.mem_filter] using hr
  have hne : ¬(uid = r.user_id ∧ cid = r.chat_id) := by
    rintro ⟨h1, h2⟩
    have := hr0.2
    rw [summaryKeyMatches] at this
    simp [← h1, ← h2] at this
  rw [count_turns_forget_eq s uid cid r.user_id r.chat_id hne]
  exact hinv r hr0.1

theorem summaryCountInv_maybe_update (cfg : Config) (backend : ChatBackend)
    (s : GatewayState) (uid cid : String) (now : Nat)
    (hinv : summaryCountInv s) :
    summaryCountInv (_maybe_update_summary cfg backend s uid cid now) := by
  unfold _maybe_update_summary
  split
  · exact hinv
  · split
    · unfold _summarize_conversation
      split
      · exact hinv
      · dsimp only
        split
        · exact hinv
        · split
          · exact hinv
          · apply summaryCountInv_upsert _ _ hinv
            exact Nat.le_refl _
    · exact hinv

theorem maybe_update_turn_count_mono (cfg : Config) (backend : ChatBackend)
    (s : GatewayState) (uid cid : String) (now : Nat)
    (hinv : summaryCountInv s) (sum sum' : ConversationSummary)
    (hs : _fetch_summary s uid cid = some sum)
    (hs' : _fetch_summary (_maybe_update_summary cfg backend s uid cid now) uid cid =
      some sum') :
    sum.turn_count ≤ sum'.turn_count := by
  have hbound : sum.turn_count ≤ _count_conversation_turns s uid cid := by
    obtain ⟨hmem, h1, h2⟩ := fetch_summary_mem s uid cid sum hs
    have := hinv sum hmem
    rw [h1, h2] at this
    exact this
  unfold _maybe_update_summary at hs'
  split at hs'
  · rw [hs] at hs'
    injection hs' with h
    subst h
    exact Nat.le_refl _
  · split at hs'
    · unfold _summarize_conversation at hs'
      split at hs'
      · rw [hs] at hs'
        injection hs' with h
        subst h
        exact Nat.le_refl _
      · dsimp only at hs'
        split at hs'
        · rw [hs] at hs'
          injection hs' with h
          subst h
          exact Nat.le_refl _
        · split at hs'
          · rw [hs] at hs'
            injection hs' with h
            subst h
            exact Nat.le_refl _
          · rename_i summary_raw heq
            dsimp only at hs'
            have h2 := fetch_upsertSummary_same s
              ⟨uid, cid, summary_raw.take cfg.summaryMaxChars,
                _count_conversation_turns s uid cid,
                _estimate_tokens (summary_raw.take cfg.summaryMaxChars), now⟩
            dsimp only at h2
            rw [hs'] at h2
            injection h2 with h
            rw [h]
            exact hbound
    · rw [hs] at hs'
      injection hs' with h
      subst h
      exact Nat.le_refl _

/-! ### Claim theorems -/

/-- C1: every dispatch call makes at most `maxRetries` attempts; the
backoff sleeps performed are exactly `1, 2, 4, ...` — one after each failed
non-final attempt and none after the final attempt; the call returns a
success iff some attempt in `1..maxRetries` succeeds, a success on attempt
`n` returns that attempt's reply with every earlier attempt having failed
(so no further attempt follows a success), and a dispatch error is raised
to the caller exactly when all attempts fail. -/
theorem dispatch_retry_backoff_policy (maxRetries : Nat)
    (outcome : Nat → Except Unit String) :
    (_dispatch_to_openclaw maxRetries outcome).2.2 ≤ maxRetries ∧
    (_dispatch_to_openclaw maxRetries outcome).2.1 =
      (List.range ((_dispatch_to_openclaw maxRetries outcome).2.2 - 1)).map
        (fun k => (2 : ℚ) ^ k) ∧
    ((∃ r, (_dispatch_to_openclaw maxRetries outcome).1 = Except.ok r) ↔
      ∃ i, 1 ≤ i ∧ i ≤ maxRetries ∧ ∃ r, outcome i = Except.ok r) ∧
    ((_dispatch_to_openclaw maxRetries outcome).1 = Except.error () ↔
      ∀ i, 1 ≤ i → i ≤ maxRetries → outcome i = Except.error ()) ∧
    (∀ r, (_dispatch_to_openclaw maxRetries outcome).1 = Except.ok r →
      outcome ((_dispatch_to_openclaw maxRetries outcome).2.2) = Except.ok r ∧
      ∀ j, 1 ≤ j → j < (_dispatch_to_openclaw maxRetries outcome).2.2 →
        outcome j = Except.error ()) := by
  rcases hd : _dispatch_to_openclaw maxRetries outcome with ⟨res, sleeps, n⟩
  obtain ⟨hle, hpos, hsl, hiff, hlast⟩ :=
    dispatchGo_spec outcome maxRetries 1 1 res sleeps n hd
  dsimp only
  refine ⟨hle, ?_, ?_, ?_, ?_⟩
  · rw [hsl]
    simp [one_mul]
  · rw [hiff]
    constructor
    · rintro ⟨i, h1, h2, hr⟩
      exact ⟨i, h1, by omega, hr⟩
    · rintro ⟨i, h1, h2, hr⟩
      exact ⟨i, h1, by omega, hr⟩
  · constructor
    · intro he i hi1 hi2
      cases hoi : outcome i with
      | ok r =>
        obtain ⟨r', hr'⟩ := hiff.mpr ⟨i, hi1, by omega, r, hoi⟩
        rw [he] at hr'
        cases hr'
      | error e => cases e; rfl
    · intro hall
      cases res with
      | ok r =>
        obtain ⟨i, hi1, hi2, r', hri⟩ := hiff.mp ⟨r, rfl⟩
        rw [hall i hi1 (by omega)] at hri
        cases hri
      | error e => cases e; rfl
  · intro r hr
    obtain ⟨hok, hprev⟩ := hlast r hr
    have e1 : 1 + n - 1 = n := by omega
    rw [e1] at hok
    refine ⟨hok, ?_⟩
    intro j hj1 hj2
    exact hprev j hj1 (by omega)

/-- C6: `_cleanup_old_messages` keeps an audit row or a turn row iff it was
present and has `created_at >= cutoff` (so it deletes exactly the rows with
`created_at < cutoff`, across all conversations), and leaves every
`conversation_summaries` row unchanged. -/
theorem purge_older_than_spec (s : GatewayState) (cutoff : Nat) :
    (∀ m : AuditMessage,
      m ∈ (_cleanup_old_messages s cutoff).message_history ↔
        m ∈ s.message_history ∧ cutoff ≤ m.created_at) ∧
    (∀ t : ConversationTurn,
      t ∈ (_cleanup_old_messages s cutoff).conversation_messages ↔
        t ∈ s.conversation_messages ∧ cutoff ≤ t.created_at) ∧
    (_cleanup_old_messages s cutoff).conversation_summaries =
      s.conversation_summaries := by
  refine ⟨?_, ?_, rfl⟩ <;> intro x <;>
    simp [_cleanup_old_messages, List.mem_filter, Nat.not_lt]

theorem estimate_comp_turnMessage :
    ((fun m : ChatMessage => _estimate_tokens m.content) ∘ turnMessage) =
      (fun t : ConversationTurn => _estimate_tokens t.content) :=
  rfl

/-- C3: the summary-refresh test of `_maybe_update_summary` is true iff
`total - last >= SUMMARY_UPDATE_EVERY_TURNS` or
`recentTokens >= SUMMARY_TOKEN_THRESHOLD`, where `total` is the live turn
count, `last` the stored summary's `turn_count` (0 when no summary), and
`recentTokens` sums the `max(1, len/4)` estimator over the last `W` fetched
turns plus the stored summary's `token_estimate` when a summary exists;
with `>=`, equality with a threshold triggers a refresh and a value one
below does not. -/
theorem should_refresh_formula (cfg : Config) (s : GatewayState)
    (uid cid : String) :
    shouldRefreshSummary cfg s uid cid = true ↔
      (((_count_conversation_turns s uid cid : Int) -
          (match _fetch_summary s uid cid with
           | some x => (x.turn_count : Int)
           | none => 0) ≥ cfg.summaryUpdateEveryTurns) ∨
        ((((((_fetch_recent_turns s uid cid cfg.contextWindowTurns).map
              (fun m => _estimate_tokens m.content)).sum +
            (match _fetch_summary s uid cid with
             | some x => x.token_estimate
             | none => 0) : Nat) : Int) ≥ cfg.summaryTokenThreshold))) := by
  unfold shouldRefreshSummary _fetch_recent_turns
  cases hsum : _fetch_summary s uid cid <;>
    simp [hsum, List.map_map, estimate_comp_turnMessage, Bool.or_eq_true,
      decide_eq_true_iff, Function.comp_assoc]

/-- C2 counterexample: in `sBlankSummary` a stored summary exists for
`(u1, c1)` and its text `" "` is non-empty, yet `_build_context_messages`
emits no `system` entry — the code's guard is emptiness after stripping
whitespace, not emptiness of the text. -/
theorem build_context_nonempty_iff_cex :
    _fetch_summary sBlankSummary "u1" "c1" = some ⟨"u1", "c1", " ", 0, 1, 0⟩ ∧
    (" " : String) ≠ "" ∧
    _build_context_messages cfgW sBlankSummary "u1" "c1" "hi" =
      [⟨"user", "hi"⟩] :=
  ⟨by decide, by decide, by decide⟩

/-- C2 (amended): the built context always ends with the new `user` entry
as its last element; the middle block is exactly the `min(N, W)` most
recent stored turns of the conversation — the suffix of the id-ordered
filtered rows — oldest-first; a single leading `system` entry is present
iff a stored summary exists whose text is non-empty after stripping
whitespace, and then its content is `"Conversation summary:\n"` plus the
summary text; and when the stored rows are sorted by increasing id, the
kept suffix is too and every dropped row's id is below every kept one's. -/
theorem build_context_shape (cfg : Config) (s : GatewayState)
    (uid cid text : String) :
    (_build_context_messages cfg s uid cid text).getLast? =
        some ⟨"user", text⟩ ∧
    ((s.conversation_messages.filter (turnKeyMatches uid cid)).drop
        ((s.conversation_messages.filter (turnKeyMatches uid cid)).length -
          cfg.contextWindowTurns)).length =
      min (s.conversation_messages.filter (turnKeyMatches uid cid)).length
        cfg.contextWindowTurns ∧
    (∃ sysPart,
      _build_context_messages cfg s uid cid text =
        sysPart ++
          ((s.conversation_messages.filter (turnKeyMatches uid cid)).drop
            ((s.conversation_messages.filter (turnKeyMatches uid cid)).length -
              cfg.contextWindowTurns)).map turnMessage ++
          [⟨"user", text⟩] ∧
      ((∃ summary, _fetch_summary s uid cid = some summary ∧
          pyStrip summary.summary_text ≠ "" ∧
          sysPart =
            [⟨"system", "Conversation summary:\n" ++ summary.summary_text⟩]) ∨
        (sysPart = [] ∧
          ∀ summary, _fetch_summary s uid cid = some summary →
            pyStrip summary.summary_text = ""))) ∧
    ((s.conversation_messages.filter (turnKeyMatches uid cid)).Pairwise
        (fun a b => a.id < b.id) →
      ((s.conversation_messages.filter (turnKeyMatches uid cid)).drop
          ((s.conversation_messages.filter (turnKeyMatches uid cid)).length -
            cfg.contextWindowTurns)).Pairwise (fun a b => a.id < b.id) ∧
      ∀ a ∈ (s.conversation_messages.filter (turnKeyMatches uid cid)).take
          ((s.conversation_messages.filter (turnKeyMatches uid cid)).length -
            cfg.contextWindowTurns),
        ∀ b ∈ (s.conversation_messages.filter (turnKeyMatches uid cid)).drop
          ((s.conversation_messages.filter (turnKeyMatches uid cid)).length -
            cfg.contextWindowTurns),
        a.id < b.id) := by
  have hrecent : recentTurnRows s uid cid cfg.contextWindowTurns =
      (s.conversation_messages.filter (turnKeyMatches uid cid)).drop
        ((s.conversation_messages.filter (turnKeyMatches uid cid)).length -
          cfg.contextWindowTurns) :=
    recentTurnRows_eq_drop s uid cid cfg.contextWindowTurns
  refine ⟨?_, ?_, ?_, ?_⟩
  · unfold _build_context_messages
    dsimp only
    exact List.getLast?_concat _
  · rw [List.length_drop]
    omega
  · cases hsum : _fetch_summary s uid cid with
    | none =>
      refine ⟨[], ?_, Or.inr ⟨rfl, ?_⟩⟩
      · unfold _build_context_messages _fetch_recent_turns
        rw [hsum, hrecent]
      · intro summary h
        simp at h
    | some summary =>
      cases hstrip : (pyStrip summary.summary_text == "") with
      | true =>
        refine ⟨[], ?_, Or.inr ⟨rfl, ?_⟩⟩
        · unfold _build_context_messages _fetch_recent_turns
          rw [hsum, hrecent]
          dsimp only
          rw [if_pos hstrip]
        · intro summary' h
          injection h with h
          subst h
          exact eq_of_beq hstrip
      | false =>
        refine ⟨[⟨"system", "Conversation summary:\n" ++ summary.summary_text⟩],
          ?_, Or.inl ⟨summary, rfl, ?_, rfl⟩⟩
        · unfold _build_context_messages _fetch_recent_turns
          rw [hsum, hrecent]
          dsimp only
          rw [if_neg (by simp [hstrip])]
        · intro hc
          rw [hc] at hstrip
          simp at hstrip
  · intro hpw
    have hsplit := List.take_append_drop
      ((s.conversation_messages.filter (turnKeyMatches uid cid)).length -
        cfg.contextWindowTurns)
      (s.conversation_messages.filter (turnKeyMatches uid cid))
    rw [← hsplit, List.pairwise_append] at hpw
    exact ⟨hpw.2.1, hpw.2.2⟩

/-- C4: on a message whose stripped, lowercased text equals the reset
literal, `_process_message` leaves no audit, turn or summary row for that
`(user_id, chat_id)`, leaves the rows of every other conversation untouched
and in order (each table becomes exactly its old content minus the key's
rows, so nothing new is stored), attempts exactly one provider send
carrying the fixed confirmation string, makes no dispatch call, and
finishes without surfacing an error whether or not the send succeeds. -/
theorem forget_resets_conversation (cfg : Config) (env : ProcessEnv)
    (s : GatewayState) (msg : IncomingMessage) (now : Nat)
    (hreset : pyLower (pyStrip msg.text) = "/forget") :
    ((_process_message cfg env s msg now).state.message_history.filter
        (auditKeyMatches msg.user_id msg.chat_id) = [] ∧
      (_process_message cfg env s msg now).state.conversation_messages.filter
        (turnKeyMatches msg.user_id msg.chat_id) = [] ∧
      (_process_message cfg env s msg now).state.conversation_summaries.filter
        (summaryKeyMatches msg.user_id msg.chat_id) = []) ∧
    ((_process_message cfg env s msg now).state.message_history =
        s.message_history.filter
          (fun m => !auditKeyMatches msg.user_id msg.chat_id m) ∧
      (_process_message cfg env s msg now).state.conversation_messages =
        s.conversation_messages.filter
          (fun t => !turnKeyMatches msg.user_id msg.chat_id t) ∧
      (_process_message cfg env s msg now).state.conversation_summaries =
        s.conversation_summaries.filter
          (fun r => !summaryKeyMatches msg.user_id msg.chat_id r)) ∧
    (_process_message cfg env s msg now).sends =
      [(msg.chat_id, FORGET_CONFIRMATION)] ∧
    (_process_message cfg env s msg now).dispatchCalls = 0 ∧
    (_process_message cfg env s msg now).escaped = false := by
  have hif : (pyLower (pyStrip msg.text) == "/forget") = true := by
    simp [hreset]
  unfold _process_message
  rw [if_pos hif]
  unfold _forget_conversation
  dsimp only
  exact ⟨⟨filter_not_filter_self _ _, filter_not_filter_self _ _,
      filter_not_filter_self _ _⟩,
    ⟨rfl, rfl, rfl⟩, rfl, rfl, rfl⟩

/-- C4 witness: the mixed-case, whitespace-padded reset `"  /FORGET "` on a
store holding records of two conversations clears exactly the `(u1, c1)`
rows, sends the fixed confirmation, and dispatches nothing. -/
theorem forget_resets_conversation_witness :
    (_process_message cfgW envAllOk sTwoChats msgForgetVariant 9).sends =
      [("c1", FORGET_CONFIRMATION)] ∧
    (_process_message cfgW envAllOk sTwoChats msgForgetVariant 9).dispatchCalls =
      0 ∧
    (_process_message cfgW envAllOk sTwoChats msgForgetVariant 9).state.conversation_messages.filter
      (turnKeyMatches "u1" "c1") = [] := by
  obtain ⟨hgone, -, hsends, hdc, -⟩ :=
    forget_resets_conversation cfgW envAllOk sTwoChats msgForgetVariant 9
      (by decide)
  exact ⟨hsends, hdc, hgone.2.1⟩

theorem process_message_normal (cfg : Config) (env : ProcessEnv)
    (s : GatewayState) (msg : IncomingMessage) (now : Nat)
    (hnr : pyLower (pyStrip msg.text) ≠ "/forget")
    (h1 : env.storeInHistOk = true) (h2 : env.storeInTurnOk = true)
    (h3 : env.storeOutHistOk = true) (h4 : env.storeOutTurnOk = true)
    (h5 : env.summaryOk = true) :
    _process_message cfg env s msg now =
      (let s1 := _store_message_history s msg.provider msg.user_id msg.chat_id
        "inbound" msg.text now
      let s2 := _store_conversation_message s1 msg.provider msg.user_id
        msg.chat_id "user" msg.text now
      let reply :=
        match (_dispatch_to_openclaw cfg.dispatchMaxRetries env.outcome).1 with
        | Except.ok r => r
        | Except.error () => FALLBACK_UNAVAILABLE
      let s3 := _store_message_history s2 msg.provider msg.user_id msg.chat_id
        "outbound" reply now
      let s4 := _store_conversation_message s3 msg.provider msg.user_id
        msg.chat_id "assistant" reply now
      { state := _maybe_update_summary cfg env.backend s4 msg.user_id
          msg.chat_id now,
        sends := [(msg.chat_id, reply)],
        dispatchCalls := 1,
        escaped := false }) := by
  obtain ⟨o, b, sk, ih, it, oh, ot, su⟩ := env
  dsimp only at h1 h2 h3 h4 h5 ⊢
  subst h1; subst h2; subst h3; subst h4; subst h5
  unfold _process_message
  rw [if_neg (by simp [hnr])]
  rfl

/-- C5: on a non-reset message, if every dispatch attempt fails (and the
storage writes themselves succeed), the reply handed to the transport is
exactly the fixed "currently unavailable" string, no error escapes
`_process_message`, and that exact string is what is appended as the
outbound audit row and as the `role=assistant` turn. -/
theorem dispatch_failure_fallback_reply (cfg : Config) (env : ProcessEnv)
    (s : GatewayState) (msg : IncomingMessage) (now : Nat)
    (hnr : pyLower (pyStrip msg.text) ≠ "/forget")
    (hfail : ∀ i, 1 ≤ i → i ≤ cfg.dispatchMaxRetries →
      env.outcome i = Except.error ())
    (h1 : env.storeInHistOk = true) (h2 : env.storeInTurnOk = true)
    (h3 : env.storeOutHistOk = true) (h4 : env.storeOutTurnOk = true)
    (h5 : env.summaryOk = true) :
    (_process_message cfg env s msg now).sends =
      [(msg.chat_id, FALLBACK_UNAVAILABLE)] ∧
    (_process_message cfg env s msg now).escaped = false ∧
    (_process_message cfg env s msg now).state.message_history =
      s.message_history ++
        [⟨msg.provider, msg.user_id, msg.chat_id, "inbound", msg.text, now⟩,
         ⟨msg.provider, msg.user_id, msg.chat_id, "outbound",
           FALLBACK_UNAVAILABLE, now⟩] ∧
    (∃ t1 t2 : ConversationTurn,
      (_process_message cfg env s msg now).state.conversation_messages =
        s.conversation_messages ++ [t1, t2] ∧
      t1.role = "user" ∧ t1.content = msg.text ∧
      t2.role = "assistant" ∧ t2.content = FALLBACK_UNAVAILABLE) := by
  have herr := dispatch_error_of_all_fail cfg.dispatchMaxRetries env.outcome hfail
  rw [process_message_normal cfg env s msg now hnr h1 h2 h3 h4 h5]
  rw [herr]
  dsimp only
  obtain ⟨hh, ht⟩ := maybe_update_preserves cfg env.backend
    (_store_conversation_message
      (_store_message_history
        (_store_conversation_message
          (_store_message_history s msg.provider msg.user_id msg.chat_id
            "inbound" msg.text now)
          msg.provider msg.user_id msg.chat_id "user" msg.text now)
        msg.provider msg.user_id msg.chat_id "outbound" FALLBACK_UNAVAILABLE now)
      msg.provider msg.user_id msg.chat_id "assistant" FALLBACK_UNAVAILABLE now)
    msg.user_id msg.chat_id now
  refine ⟨rfl, rfl, ?_, ?_⟩
  · rw [hh]
    simp [_store_message_history, _store_conversation_message]
  · refine ⟨⟨nextTurnId (_store_message_history s msg.provider msg.user_id
        msg.chat_id "inbound" msg.text now), msg.provider, msg.user_id,
        msg.chat_id, "user", msg.text, now⟩,
      ⟨nextTurnId (_store_message_history
          (_store_conversation_message
            (_store_message_history s msg.provider msg.user_id msg.chat_id
              "inbound" msg.text now)
            msg.provider msg.user_id msg.chat_id "user" msg.text now)
          msg.provider msg.user_id msg.chat_id "outbound" FALLBACK_UNAVAILABLE
          now), msg.provider, msg.user_id, msg.chat_id, "assistant",
        FALLBACK_UNAVAILABLE, now⟩, ?_, rfl, rfl, rfl, rfl⟩
    rw [ht]
    simp [_store_message_history, _store_conversation_message]

/-- C5 witness: with three failing attempts on an empty store, `hello`
yields the fixed fallback as the attempted delivery and no escaping
error. -/
theorem dispatch_failure_fallback_reply_witness :
    (_process_message cfgW envFailDispatch sEmpty msgHello 7).sends =
      [("c1", FALLBACK_UNAVAILABLE)] ∧
    (_process_message cfgW envFailDispatch sEmpty msgHello 7).escaped = false := by
  obtain ⟨hs, he, -, -⟩ :=
    dispatch_failure_fallback_reply cfgW envFailDispatch sEmpty msgHello 7
      (by decide) (fun i _ _ => rfl) rfl rfl rfl rfl rfl
  exact ⟨hs, he⟩

/-- C8 counterexample: dispatch succeeds with reply `pong` on attempt 2,
then the outbound audit write raises; the already-computed reply is never
handed to the transport — `_process_message` aborts with the exception
escaping instead of delivering. -/
theorem reply_storage_error_blocks_delivery_cex :
    (_dispatch_to_openclaw cfgW.dispatchMaxRetries envOutHistFails.outcome).1 =
      Except.ok "pong" ∧
    (_process_message cfgW envOutHistFails sEmpty msgHello 5).sends = [] ∧
    (_process_message cfgW envOutHistFails sEmpty msgHello 5).escaped = true :=
  ⟨by rfl, by decide, by decide⟩

/-- C8 (amended): on a non-reset message whose inbound writes succeed, a
storage failure while storing the reply (outbound audit row or outbound
turn) or while updating the summary is not caught: the exception escapes
`_process_message` and the computed reply is never handed to the transport
collaborator; only when all those writes succeed is the reply handed over
(whatever the send outcome). -/
theorem reply_storage_error_propagates (cfg : Config) (env : ProcessEnv)
    (s : GatewayState) (msg : IncomingMessage) (now : Nat)
    (hnr : pyLower (pyStrip msg.text) ≠ "/forget")
    (h1 : env.storeInHistOk = true) (h2 : env.storeInTurnOk = true) :
    ((env.storeOutHistOk = false ∨ env.storeOutTurnOk = false ∨
        env.summaryOk = false) →
      (_process_message cfg env s msg now).sends = [] ∧
      (_process_message cfg env s msg now).escaped = true ∧
      (_process_message cfg env s msg now).dispatchCalls = 1) ∧
    (env.storeOutHistOk = true → env.storeOutTurnOk = true →
      env.summaryOk = true →
      (_process_message cfg env s msg now).escaped = false ∧
      ∃ reply, (_process_message cfg env s msg now).sends =
        [(msg.chat_id, reply)]) := by
  obtain ⟨o, b, sk, ih, it, oh, ot, su⟩ := env
  dsimp only at h1 h2 ⊢
  subst h1; subst h2
  unfold _process_message
  rw [if_neg (by simp [hnr])]
  constructor
  · intro hdisj
    cases oh with
    | false => exact ⟨rfl, rfl, rfl⟩
    | true =>
      cases ot with
      | false => exact ⟨rfl, rfl, rfl⟩
      | true =>
        cases su with
        | false => exact ⟨rfl, rfl, rfl⟩
        | true => simp at hdisj
  · intro hoh hot hsu
    subst hoh; subst hot; subst hsu
    exact ⟨rfl, ⟨_, rfl⟩⟩

/-- C8 witness: the concrete blocked delivery of the counterexample run,
obtained from the amended theorem. -/
theorem reply_storage_error_propagates_witness :
    (_process_message cfgW envOutHistFails sEmpty msgHello 5).sends = [] ∧
    (_process_message cfgW envOutHistFails sEmpty msgHello 5).escaped = true := by
  obtain ⟨hblock, -⟩ :=
    reply_storage_error_propagates cfgW envOutHistFails sEmpty msgHello 5
      (by decide) rfl rfl
  obtain ⟨ha, hb, -⟩ := hblock (Or.inl rfl)
  exact ⟨ha, hb⟩

/-- C7: with summarization enabled and at least one stored turn for the
conversation, `_summarize_conversation` makes exactly one chat-completion
call whose messages are the fixed summarizer instruction plus the
`"role: content"` lines (joined by newline) of the up-to-40 most recent
turns oldest-first, with the shorter summary timeout; on dispatch failure
the state is returned unchanged (silent skip, no summary row written or
changed); on success it upserts exactly the summary row whose text is the
extracted reply truncated to `SUMMARY_MAX_CHARS` characters, whose
`turn_count` is the supplied total, and whose `token_estimate` is the
estimator of the stored text. -/
theorem summary_refresh_behavior (cfg : Config) (backend : ChatBackend)
    (s : GatewayState) (uid cid : String) (total now : Nat)
    (hen : cfg.enableContextSummary = true)
    (hne : s.conversation_messages.filter (turnKeyMatches uid cid) ≠ []) :
    (_summarize_conversation cfg backend s uid cid total now).2 =
      some ([⟨"system", summarizerInstruction cfg.summaryMaxChars⟩,
             ⟨"user", summaryTranscript (recentTurnRows s uid cid 40)⟩],
            cfg.summaryTimeoutSeconds) ∧
    (recentTurnRows s uid cid 40).length =
      min (s.conversation_messages.filter (turnKeyMatches uid cid)).length 40 ∧
    (∀ e, backend
        [⟨"system", summarizerInstruction cfg.summaryMaxChars⟩,
         ⟨"user", summaryTranscript (recentTurnRows s uid cid 40)⟩]
        cfg.summaryTimeoutSeconds = Except.error e →
      (_summarize_conversation cfg backend s uid cid total now).1 = s) ∧
    (∀ content, backend
        [⟨"system", summarizerInstruction cfg.summaryMaxChars⟩,
         ⟨"user", summaryTranscript (recentTurnRows s uid cid 40)⟩]
        cfg.summaryTimeoutSeconds = Except.ok content →
      (_summarize_conversation cfg backend s uid cid total now).1 =
        upsertSummary s
          ⟨uid, cid, (extract_chat_content content).take cfg.summaryMaxChars,
            total,
            _estimate_tokens
              ((extract_chat_content content).take cfg.summaryMaxChars),
            now⟩) := by
  have hlen : (recentTurnRows s uid cid 40).length =
      min (s.conversation_messages.filter (turnKeyMatches uid cid)).length 40 :=
    length_recentTurnRows s uid cid 40
  have hpos : 0 < (s.conversation_messages.filter (turnKeyMatches uid cid)).length :=
    List.length_pos.mpr hne
  have hturns : (recentTurnRows s uid cid 40).isEmpty = false := by
    cases hr : recentTurnRows s uid cid 40 with
    | nil =>
      exfalso
      rw [hr] at hlen
      simp at hlen
      omega
    | cons a t => rfl
  unfold _summarize_conversation
  rw [if_neg (by simp [hen])]
  dsimp only
  rw [if_neg (by simp [hturns])]
  refine ⟨?_, hlen, ?_, ?_⟩
  · cases hb : backend
        [⟨"system", summarizerInstruction cfg.summaryMaxChars⟩,
         ⟨"user", summaryTranscript (recentTurnRows s uid cid 40)⟩]
        cfg.summaryTimeoutSeconds with
    | error e =>
      cases e
      simp [_chat_completion, hb, Except.map]
    | ok content =>
      simp [_chat_completion, hb, Except.map]
  · intro e hb
    cases e
    simp [_chat_completion, hb, Except.map]
  · intro content hb
    simp [_chat_completion, hb, Except.map]

/-- C7 witness: three stored turns, a 5-character budget and a padded
backend reply: the summarizer call carries the fixed instruction and the
transcript, and the upserted row holds the stripped reply truncated to
`"a con"` with `turn_count` the supplied total 3. -/
theorem summary_refresh_behavior_witness :
    (_summarize_conversation cfgTrunc backendShort sCtx "u1" "c1" 3 9).1 =
      upsertSummary sCtx ⟨"u1", "c1", "a con", 3, 1, 9⟩ ∧
    (_summarize_conversation cfgTrunc backendShort sCtx "u1" "c1" 3 9).2 =
      some ([⟨"system", summarizerInstruction 5⟩,
             ⟨"user", summaryTranscript (recentTurnRows sCtx "u1" "c1" 40)⟩],
            30) := by
  obtain ⟨hcall, -, -, hok⟩ :=
    summary_refresh_behavior cfgTrunc backendShort sCtx "u1" "c1" 3 9 rfl
      (by decide)
  refine ⟨?_, hcall⟩
  rw [hok (some "  a concise summary  ") rfl]
  decide

set_option maxRecDepth 4000 in
/-- C9 counterexample: the four turns of `sFourTurns` are summarized
(`turn_count = 4`); the retention purge then deletes three old turns but
no summary, after which the stored `turn_count` 4 exceeds the live count
1 — and the next summary update writes `turn_count = 1 < 4`, so successive
updates are not monotonically non-decreasing either. -/
theorem turn_count_invariant_cex :
    ((_fetch_summary c9AfterPurge "u9" "c9").map
      (fun x => x.turn_count)).getD 0 = 4 ∧
    _count_conversation_turns c9AfterPurge "u9" "c9" = 1 ∧
    ((_fetch_summary
        (_maybe_update_summary cfgLowThreshold backendFacts c9AfterPurge "u9"
          "c9" 200) "u9" "c9").map
      (fun x => x.turn_count)).getD 0 = 1 := by
  have hval : c9AfterPurge =
      ⟨[], [turnW 4 "u9" "c9" "user" "m" 4],
       [⟨"u9", "c9", "facts", 4, 1, 100⟩]⟩ := by decide
  refine ⟨?_, ?_, ?_⟩
  · rw [hval]
    decide
  · rw [hval]
    decide
  · rw [hval]
    decide

/-- C9 (amended): every summary update writes the live turn count, so the
invariant "each stored summary's `turn_count` is at most its
conversation's live `ConversationTurn` count" is preserved by summary
updates, turn appends and whole-conversation reset, and under it a summary
update never decreases `turn_count`; the retention purge, however, deletes
turns without touching summaries and breaks both properties (see the
counterexample). -/
theorem turn_count_invariant_preservation :
    (∀ cfg backend s uid cid now, summaryCountInv s →
      summaryCountInv (_maybe_update_summary cfg backend s uid cid now)) ∧
    (∀ s prov uid cid role content now, summaryCountInv s →
      summaryCountInv
        (_store_conversation_message s prov uid cid role content now)) ∧
    (∀ s uid cid, summaryCountInv s →
      summaryCountInv (_forget_conversation s uid cid)) ∧
    (∀ cfg backend s uid cid now sum sum', summaryCountInv s →
      _fetch_summary s uid cid = some sum →
      _fetch_summary (_maybe_update_summary cfg backend s uid cid now) uid cid =
        some sum' →
      sum.turn_count ≤ sum'.turn_count) :=
  ⟨fun cfg backend s uid cid now hinv =>
      summaryCountInv_maybe_update cfg backend s uid cid now hinv,
    fun s prov uid cid role content now hinv =>
      summaryCountInv_store s prov uid cid role content now hinv,
    fun s uid cid hinv => summaryCountInv_forget s uid cid hinv,
    fun cfg backend s uid cid now sum sum' hinv hs hs' =>
      maybe_update_turn_count_mono cfg backend s uid cid now hinv sum sum' hs
        hs'⟩

/-- C9 witness: the invariant holds on a concrete store and is carried
through a concrete turn append. -/
theorem turn_count_invariant_preservation_witness :
    summaryCountInv
      (_store_conversation_message sCtx "telegram" "u1" "c1" "user" "more" 9) :=
  turn_count_invariant_preservation.2.1 sCtx "telegram" "u1" "c1" "user" "more"
    9 (by
      intro r hr
      have hr' : r = ⟨"u1", "c1", "likes tea", 3, 2, 2⟩ := by
        simpa [sCtx] using hr
      subst hr'
      decide)

/-- C10: the reset normalization is strip-then-lowercase.
`_process_message` takes the reset path exactly when
`lower(strip(text)) = "/forget"`: then the state is precisely the
conversation reset, nothing is dispatched, and the single send is the
fixed confirmation; for any other text (including text merely containing
the literal) the message is processed normally — whenever the inbound
writes succeed there is exactly one dispatch call and the inbound
`role=user` turn is appended after the existing turns. -/
theorem reset_normalization_strip_lower (cfg : Config) (env : ProcessEnv)
    (s : GatewayState) (msg : IncomingMessage) (now : Nat) :
    (pyLower (pyStrip msg.text) = "/forget" →
      (_process_message cfg env s msg now).state =
        _forget_conversation s msg.user_id msg.chat_id ∧
      (_process_message cfg env s msg now).dispatchCalls = 0 ∧
      (_process_message cfg env s msg now).sends =
        [(msg.chat_id, FORGET_CONFIRMATION)]) ∧
    (pyLower (pyStrip msg.text) ≠ "/forget" →
      env.storeInHistOk = true → env.storeInTurnOk = true →
      (_process_message cfg env s msg now).dispatchCalls = 1 ∧
      ∃ rest, (_process_message cfg env s msg now).state.conversation_messages =
        (s.conversation_messages ++
          [⟨nextTurnId s, msg.provider, msg.user_id, msg.chat_id, "user",
            msg.text, now⟩]) ++ rest) := by
  constructor
  · intro hreset
    unfold _process_message
    rw [if_pos (by simp [hreset])]
    exact ⟨rfl, rfl, rfl⟩
  · intro hnr h1 h2
    obtain ⟨o, b, sk, ih, it, oh, ot, su⟩ := env
    dsimp only at h1 h2 ⊢
    subst h1; subst h2
    unfold _process_message
    rw [if_neg (by simp [hnr])]
    cases oh with
    | false =>
      refine ⟨rfl, [], ?_⟩
      dsimp only [_store_conversation_message, _store_message_history]
      simp [nextTurnId]
    | true =>
      cases ot with
      | false =>
        refine ⟨rfl, [], ?_⟩
        dsimp only [_store_conversation_message, _store_message_history]
        simp [nextTurnId]
      | true =>
        cases su with
        | false =>
          refine ⟨rfl, ?_⟩
          dsimp only [_store_conversation_message, _store_message_history]
          exact ⟨_, rfl⟩
        | true =>
          refine ⟨rfl, ?_⟩
          simp only [Bool.not_true, Bool.false_eq_true, if_false]
          rw [(maybe_update_preserves _ _ _ _ _ _).2]
          dsimp only [_store_conversation_message, _store_message_history]
          exact ⟨_, rfl⟩

/-- C10 witness: `"  /FORGET "` resets (no dispatch) while
`"please /forget"` is processed as a normal message (one dispatch). -/
theorem reset_normalization_strip_lower_witness :
    (_process_message cfgW envAllOk sTwoChats msgMentionsForget 9).dispatchCalls =
      1 ∧
    (_process_message cfgW envAllOk sTwoChats msgForgetVariant 9).dispatchCalls =
      0 := by
  obtain ⟨-, hnormal⟩ :=
    reset_normalization_strip_lower cfgW envAllOk sTwoChats msgMentionsForget 9
  obtain ⟨hreset, -⟩ :=
    reset_normalization_strip_lower cfgW envAllOk sTwoChats msgForgetVariant 9
  exact ⟨(hnormal (by decide) rfl rfl).1, (hreset (by decide)).2.1⟩

/-- C3 witness: with `SUMMARY_UPDATE_EVERY_TURNS = 6` and no summary,
exactly six stored turns meet the threshold (equality triggers) and five
do not (one below does not, token estimate far under threshold). -/
theorem should_refresh_formula_witness :
    shouldRefreshSummary cfgW sSixTurns "u1" "c1" = true ∧
    shouldRefreshSummary cfgW sFiveTurns "u1" "c1" = false := by
  constructor
  · exact (should_refresh_formula cfgW sSixTurns "u1" "c1").mpr
      (Or.inl (by decide))
  · have h := should_refresh_formula cfgW sFiveTurns "u1" "c1"
    cases hb : shouldRefreshSummary cfgW sFiveTurns "u1" "c1"
    · rfl
    · exfalso
      rcases h.mp hb with hc | hc
      · revert hc
        decide
      · revert hc
        decide
